import Mathlib

/-!
Verification of the roarinca certificate-authority backend
(`backend/src/csr.js`, `backend/src/server.js`, `backend/src/ca.js`,
`backend/src/db.js`) against its natural-language specification.

Strings from the JavaScript source are modelled over `List Char`
(`String.data`), with explicit ASCII lowering and trimming mirroring the
`toLowerCase` / `trim` calls of the source; all definitions are executable.
-/

set_option autoImplicit false

namespace Roarinca

/-- ASCII lower-casing of a single character, as used by the source's
`entry.toLowerCase()` on the ASCII prefixes it tests for. -/
def asciiLower (c : Char) : Char :=
  if 'A' ≤ c ∧ c ≤ 'Z' then Char.ofNat (c.toNat + 32) else c

/-- JavaScript `String.prototype.trim` on a character list (ASCII whitespace). -/
def trimChars (l : List Char) : List Char :=
  ((l.dropWhile Char.isWhitespace).reverse.dropWhile Char.isWhitespace).reverse

/-- Split a character list at every occurrence of the separator, keeping
empty pieces, as JavaScript `split` does. -/
def splitOnChar (sep : Char) : List Char → List (List Char)
  | [] => [[]]
  | c :: cs =>
    if c = sep then
      [] :: splitOnChar sep cs
    else
      match splitOnChar sep cs with
      | [] => [[c]]
      | g :: gs => (c :: g) :: gs

/-- `san.split(',').map((s) => s.trim()).filter(Boolean)` from
`buildSanConfig` (csr.js) and `buildExtConfig` (server.js). -/
def sanEntriesOf (san : String) : List (List Char) :=
  ((splitOnChar ',' san.data).map trimChars).filter (fun l => !l.isEmpty)

/-- Hexadecimal digit, for the IPv6 heuristic `/^[0-9a-fA-F:]+$/`. -/
def isHexChar (c : Char) : Bool :=
  c.isDigit || ('a' ≤ c && c ≤ 'f') || ('A' ≤ c && c ≤ 'F')

/-- The regular expression `/^\d{1,3}(\.\d{1,3}){3}$/` used to detect
dotted-quad IPv4 entries: exactly four dot-separated groups of one to
three decimal digits. -/
def ipv4Quad (l : List Char) : Bool :=
  let parts := splitOnChar '.' l
  parts.length == 4 &&
    parts.all (fun p => decide (1 ≤ p.length) && decide (p.length ≤ 3) && p.all Char.isDigit)

/-- The heuristic `/^[0-9a-fA-F:]+$/.test(entry) && entry.includes(':')`
used to detect IPv6 entries. -/
def hexColon (l : List Char) : Bool :=
  !l.isEmpty && l.all (fun c => isHexChar c || c == ':') && l.contains ':'

/-- The three Subject-Alternative-Name entry types emitted by the parsers. -/
inductive SanType where
  | dns
  | ip
  | email
deriving DecidableEq, Repr

/-- The loop body of `buildSanConfig` (csr.js lines 86-126): walks the
trimmed entries carrying the three per-type counters `dnsCount`,
`ipCount`, `emailCount`, emitting one typed, numbered value per kept
entry. Explicit `dns:`/`dns=`, `ip:`/`ip=`, `email:`/`email=` prefixes
are recognised case-insensitively, stripped, and the residual value is
trimmed (an empty residual emits nothing and leaves the counter alone);
un-prefixed entries fall through to the IPv4 / IPv6 / email / DNS
heuristics. -/
def sanLoop : List (List Char) → Nat → Nat → Nat → List (SanType × Nat × List Char)
  | [], _, _, _ => []
  | e :: rest, d, i, m =>
    let low := e.map asciiLower
    if "dns:".data.isPrefixOf low || "dns=".data.isPrefixOf low then
      let v := trimChars (e.drop 4)
      if v.isEmpty then sanLoop rest d i m
      else (SanType.dns, d, v) :: sanLoop rest (d + 1) i m
    else if "ip:".data.isPrefixOf low || "ip=".data.isPrefixOf low then
      let v := trimChars (e.drop 3)
      if v.isEmpty then sanLoop rest d i m
      else (SanType.ip, i, v) :: sanLoop rest d (i + 1) m
    else if "email:".data.isPrefixOf low || "email=".data.isPrefixOf low then
      let v := trimChars (e.drop 6)
      if v.isEmpty then sanLoop rest d i m
      else (SanType.email, m, v) :: sanLoop rest d i (m + 1)
    else if ipv4Quad e then
      (SanType.ip, i, e) :: sanLoop rest d (i + 1) m
    else if hexColon e then
      (SanType.ip, i, e) :: sanLoop rest d (i + 1) m
    else if e.contains '@' then
      (SanType.email, m, e) :: sanLoop rest d i (m + 1)
    else
      (SanType.dns, d, e) :: sanLoop rest (d + 1) i m

/-- The typed, numbered `[alt_names]` entries of the request-time extension
config built by `buildSanConfig` (csr.js): nothing when the SAN text is
empty or whitespace-only, otherwise the loop over the trimmed entries
with all three counters starting at 1. -/
def buildSanEntries (san : String) : List (SanType × Nat × String) :=
  if (trimChars san.data).isEmpty then []
  else (sanLoop (sanEntriesOf san) 1 1 1).map (fun t => (t.1, t.2.1, String.mk t.2.2))

/-- The SAN classification of the signing-time `buildExtConfig`
(server.js lines 140-148): an entry matching the dotted-quad pattern or
merely containing a colon becomes `IP:<entry>`, an entry containing `@`
becomes `email:<entry>`, anything else becomes `DNS:<entry>`. No explicit
prefix handling takes place. -/
def extClassify (e : List Char) : SanType × List Char :=
  if ipv4Quad e || e.contains ':' then (SanType.ip, e)
  else if e.contains '@' then (SanType.email, e)
  else (SanType.dns, e)

/-- The `subjectAltName` parts of the signing-time extension fragment
built by `buildExtConfig` (server.js): empty when the SAN text is blank,
otherwise each trimmed entry classified by `extClassify`. -/
def extSanEntries (san : String) : List (SanType × String) :=
  if (trimChars san.data).isEmpty then []
  else (sanEntriesOf san).map (fun e => ((extClassify e).1, String.mk (extClassify e).2))

/-- The request-time SAN entries with the per-type numbering projected
away: the typed values in encounter order. -/
def requestSanTyped (san : String) : List (SanType × String) :=
  (buildSanEntries san).map (fun t => (t.1, t.2.2))

/-- Specification-side classification of one trimmed SAN entry, written
from the five rules of spec section 4.2: explicit case-insensitive
`dns:`/`dns=`, `ip:`/`ip=`, `email:`/`email=` prefixes are stripped and
force the stated type (an empty residual is dropped, yielding `none`);
otherwise dotted-quad IPv4, then colon-containing hex-and-colon, then
`@`-containing, then DNS by default. -/
def specClassify (e : List Char) : Option (SanType × List Char) :=
  let low := e.map asciiLower
  if "dns:".data.isPrefixOf low || "dns=".data.isPrefixOf low then
    let v := trimChars (e.drop 4)
    if v.isEmpty then none else some (SanType.dns, v)
  else if "ip:".data.isPrefixOf low || "ip=".data.isPrefixOf low then
    let v := trimChars (e.drop 3)
    if v.isEmpty then none else some (SanType.ip, v)
  else if "email:".data.isPrefixOf low || "email=".data.isPrefixOf low then
    let v := trimChars (e.drop 6)
    if v.isEmpty then none else some (SanType.email, v)
  else if ipv4Quad e then some (SanType.ip, e)
  else if hexColon e then some (SanType.ip, e)
  else if e.contains '@' then some (SanType.email, e)
  else some (SanType.dns, e)

/-- Number of entries of a given type in a classified list. -/
def countType (t : SanType) (l : List (SanType × List Char)) : Nat :=
  (l.filter (fun p => p.1 = t)).length

/-- Specification-side numbering, from the spec's words: each classified
entry receives the index `1 +` the number of earlier entries of the same
type; `seen` is the list of entries already encountered. -/
def specNumberAux (seen : List (SanType × List Char)) :
    List (SanType × List Char) → List (SanType × Nat × List Char)
  | [] => []
  | p :: rest => (p.1, 1 + countType p.1 seen, p.2) :: specNumberAux (seen ++ [p]) rest

/-- Specification-side SAN fragment of section 4.2: empty when the SAN
text is empty or whitespace-only; otherwise each trimmed non-empty entry
classified by the five rules and numbered sequentially from 1 in
encounter order, independently per type. -/
def specSanFragment (san : String) : List (SanType × Nat × String) :=
  if (trimChars san.data).isEmpty then []
  else
    (specNumberAux [] ((sanEntriesOf san).filterMap specClassify)).map
      (fun t => (t.1, t.2.1, String.mk t.2.2))

/-- An extension profile triple, one row of the `PRESETS` objects. -/
structure ExtProfile where
  keyUsage : String
  extKeyUsage : String
  basicConstraints : String
deriving DecidableEq, Repr

/-- The `server_tls` row of the request-time `PRESETS` object (csr.js). -/
def serverTlsReqProfile : ExtProfile :=
  ⟨"critical,digitalSignature,keyEncipherment", "serverAuth", "CA:FALSE"⟩

/-- The request-time `PRESETS` lookup table of csr.js. -/
def reqPresets (p : String) : Option ExtProfile :=
  if p = "server_tls" then some serverTlsReqProfile
  else if p = "client_tls" then some ⟨"critical,digitalSignature", "clientAuth", "CA:FALSE"⟩
  else if p = "code_signing" then some ⟨"critical,digitalSignature", "codeSigning", "CA:FALSE"⟩
  else none

/-- The `server_tls` row of the signing-time `PRESETS` object (server.js). -/
def serverTlsSignProfile : ExtProfile :=
  ⟨"critical,digitalSignature,keyEncipherment", "serverAuth", "critical,CA:FALSE"⟩

/-- The signing-time `PRESETS` lookup table of server.js. -/
def signPresets (p : String) : Option ExtProfile :=
  if p = "server_tls" then some serverTlsSignProfile
  else if p = "client_tls" then some ⟨"critical,digitalSignature", "clientAuth", "critical,CA:FALSE"⟩
  else if p = "code_signing" then some ⟨"critical,digitalSignature", "codeSigning", "critical,CA:FALSE"⟩
  else none

/-- `PRESETS[preset] || PRESETS.server_tls` in `buildSanConfig` (csr.js):
an unknown preset silently resolves to the `server_tls` profile. -/
def resolveReqProfile (p : String) : ExtProfile :=
  (reqPresets p).getD serverTlsReqProfile

/-- `PRESETS[preset] || PRESETS.server_tls` in `buildExtConfig`
(server.js): an unknown preset silently resolves to the `server_tls`
profile. -/
def resolveSignProfile (p : String) : ExtProfile :=
  (signPresets p).getD serverTlsSignProfile

/-- The typed content of the request-time OpenSSL config produced by
`buildSanConfig(san, preset)` of csr.js: the resolved profile triple in
the `[v3_req]` section plus the numbered `[alt_names]` entries. -/
def buildSanConfigFragment (san preset : String) : ExtProfile × List (SanType × Nat × String) :=
  (resolveReqProfile preset, buildSanEntries san)

/-- The typed content of the signing-time extension file produced by
`buildExtConfig(preset, san)` of server.js: the resolved profile triple,
the constant `subjectKeyIdentifier` and `authorityKeyIdentifier` lines,
and the `subjectAltName` parts. -/
structure ExtFragment where
  profile : ExtProfile
  subjectKeyId : String
  authorityKeyId : String
  subjectAltName : List (SanType × String)
deriving DecidableEq, Repr

/-- `buildExtConfig(preset, san)` of server.js, in typed form. -/
def buildExtFragment (preset san : String) : ExtFragment :=
  { profile := resolveSignProfile preset
    subjectKeyId := "hash"
    authorityKeyId := "keyid,issuer"
    subjectAltName := extSanEntries san }

/-- The identity fields handed to `buildSubject` by the CSR route;
absent or blank JSON fields are modelled as the empty string, matching
the JavaScript truthiness tests. -/
structure SubjectFields where
  common_name : String
  organization : String
  organizational_unit : String
  country : String
  state : String
  locality : String
  email : String
deriving DecidableEq, Repr

/-- The `parts` array pushed by `buildSubject` (csr.js lines 50-60):
each non-empty field contributes its attribute segment, in the fixed
order C, ST, L, O, OU, CN, emailAddress. -/
def buildSubjectParts (d : SubjectFields) : List String :=
  (if d.country = "" then [] else ["/C=" ++ d.country]) ++
  (if d.state = "" then [] else ["/ST=" ++ d.state]) ++
  (if d.locality = "" then [] else ["/L=" ++ d.locality]) ++
  (if d.organization = "" then [] else ["/O=" ++ d.organization]) ++
  (if d.organizational_unit = "" then [] else ["/OU=" ++ d.organizational_unit]) ++
  (if d.common_name = "" then [] else ["/CN=" ++ d.common_name]) ++
  (if d.email = "" then [] else ["/emailAddress=" ++ d.email])

/-- `buildSubject` of csr.js: `parts.join('')`. -/
def buildSubject (d : SubjectFields) : String :=
  String.join (buildSubjectParts d)

/-- Specification-side subject canonicalization, from the spec's words:
the concatenation, over the fixed ordered list of attribute-name /
field-value pairs, of exactly the segments whose value is non-empty. -/
def subjectSpecOf (pairs : List (String × String)) : String :=
  String.join (pairs.filterMap (fun p => if p.2 = "" then none else some (p.1 ++ p.2)))

/-- Spec section 4.2 subject (request-generation path, email included). -/
def subjectSpec (d : SubjectFields) : String :=
  subjectSpecOf
    [("/C=", d.country), ("/ST=", d.state), ("/L=", d.locality), ("/O=", d.organization),
     ("/OU=", d.organizational_unit), ("/CN=", d.common_name), ("/emailAddress=", d.email)]

/-- The stable error classifications of the spec's section 7 taxonomy
that the verified routes report. -/
inductive ApiError where
  | MissingCommonName
  | InvalidProfile
  | CaNotInitialized
  | RequestNotFound
  | AlreadySigned
deriving DecidableEq, Repr

/-- The validation prefix of `POST /api/csr` (csr.js lines 152-158): a
missing Common Name is rejected first, then an unknown preset. -/
def csrCreateCheck (common_name preset : String) : Option ApiError :=
  if common_name = "" then some ApiError.MissingCommonName
  else if (reqPresets preset).isNone then some ApiError.InvalidProfile
  else none

/-- One row of the singleton `ca_settings` table (db.js). The
`initFlag` field models the `initialized` INTEGER column. -/
structure CaRow where
  common_name : String
  organization : String
  organizational_unit : String
  country : String
  state : String
  locality : String
  key_type : String
  key_size : Nat
  initFlag : Nat
deriving DecidableEq, Repr

/-- The settings object returned by `GET /api/ca/settings`; `initFlag`
models the reported `initialized` boolean. -/
structure CaSettingsView where
  common_name : String
  organization : String
  organizational_unit : String
  country : String
  state : String
  locality : String
  key_type : String
  key_size : Nat
  initFlag : Bool
deriving DecidableEq, Repr

/-- The `GET /api/ca/settings` handler (ca.js lines 73-94): it computes
`exists = fs.existsSync(caKeyPath) && fs.existsSync(caCertPath)` and
reports `initialized: exists && settings.initialized === 1`, with JS
falsy-to-default substitution on the other fields; a missing row reads
every field as `undefined`. -/
def getCaSettingsView (keyExists certExists : Bool) (row : Option CaRow) : CaSettingsView :=
  let ex := keyExists && certExists
  match row with
  | some r =>
    { common_name := r.common_name
      organization := r.organization
      organizational_unit := r.organizational_unit
      country := r.country
      state := r.state
      locality := r.locality
      key_type := if r.key_type = "" then "RSA" else r.key_type
      key_size := if r.key_size = 0 then 2048 else r.key_size
      initFlag := ex && (r.initFlag == 1) }
  | none =>
    { common_name := ""
      organization := ""
      organizational_unit := ""
      country := ""
      state := ""
      locality := ""
      key_type := "RSA"
      key_size := 2048
      initFlag := ex && false }

/-- The persisted flag by itself: whether the stored row exists and its
`initialized` column equals 1. -/
def storedFlagOne (row : Option CaRow) : Bool :=
  match row with
  | some r => r.initFlag == 1
  | none => false

/-- The validation prefix of `POST /api/ca/init` (ca.js lines 147-149):
`if (!settings || !settings.common_name)` rejects a missing row or a
blank Common Name. -/
def caInitCheck (row : Option CaRow) : Option ApiError :=
  match row with
  | none => some ApiError.MissingCommonName
  | some r => if r.common_name = "" then some ApiError.MissingCommonName else none

/-- The subject built by `POST /api/ca/init` (ca.js lines 153-160):
conditional C, ST, L, O, OU segments, then an unconditional CN segment;
no email segment exists on this path. -/
def caInitSubject (r : CaRow) : String :=
  String.join
    ((if r.country = "" then [] else ["/C=" ++ r.country]) ++
     (if r.state = "" then [] else ["/ST=" ++ r.state]) ++
     (if r.locality = "" then [] else ["/L=" ++ r.locality]) ++
     (if r.organization = "" then [] else ["/O=" ++ r.organization]) ++
     (if r.organizational_unit = "" then [] else ["/OU=" ++ r.organizational_unit]) ++
     ["/CN=" ++ r.common_name])

/-- One row of the `csr_requests` table, with the columns the signing
and deletion routes read. -/
structure CsrRow where
  rid : Nat
  preset : String
  san : String
  csr_pem : String
  key_pem : String
  status : String
deriving DecidableEq, Repr

/-- One row of the `certificates` table, with the columns the signing
route writes. -/
structure CertRow where
  cid : Nat
  csr_id : Option Nat
  common_name : String
  serial_number : String
  cert_pem : String
  key_pem : Option String
  chain_pem : Option String
  source : String
deriving DecidableEq, Repr

/-- The database state the signing and deletion routes operate on. -/
structure DbState where
  csrs : List CsrRow
  certs : List CertRow
deriving DecidableEq, Repr

/-- The CA artifact store: contents of `ca.key.pem` and `ca.cert.pem`
when present. -/
structure CaArtifacts where
  caKey : Option String
  caCert : Option String
deriving DecidableEq, Repr

/-- `SELECT * FROM csr_requests WHERE id = ?`: the first row with the
given id. -/
def findCsr : List CsrRow → Nat → Option CsrRow
  | [], _ => none
  | r :: rest, i => if r.rid == i then some r else findCsr rest i

/-- `UPDATE csr_requests SET status = 'signed' ... WHERE id = ?`: every
row with the given id has its status set to signed. -/
def setSigned : List CsrRow → Nat → List CsrRow
  | [], _ => []
  | r :: rest, i =>
    (if r.rid == i then { r with status := "signed" } else r) :: setSigned rest i

/-- Whether `DELETE FROM csr_requests WHERE id = ?` matches any row
(`this.changes` non-zero). -/
def anyCsr : List CsrRow → Nat → Bool
  | [], _ => false
  | r :: rest, i => (r.rid == i) || anyCsr rest i

/-- The rows surviving `DELETE FROM csr_requests WHERE id = ?`. -/
def removeCsr : List CsrRow → Nat → List CsrRow
  | [], _ => []
  | r :: rest, i => if r.rid == i then removeCsr rest i else r :: removeCsr rest i

/-- Outcomes of the external steps of one `POST /api/certificates/sign`
operation that the engine does not control: whether the OpenSSL signing
plus certificate parsing succeed (and what they produce), whether the
certificate INSERT succeeds and the generated row id, and whether the
status UPDATE succeeds. -/
structure SignEnv where
  opensslOk : Bool
  certPem : String
  parsedCN : String
  parsedSerial : String
  parsedIssuer : String
  parsedSubject : String
  insertOk : Bool
  newId : Nat
  updateOk : Bool
deriving DecidableEq, Repr

/-- Result classification of one sign operation. -/
inductive SignOutcome where
  | ok (certId : Nat)
  | caNotInitialized
  | requestNotFound
  | alreadySigned
  | signFailed
  | insertFailed
deriving DecidableEq, Repr

/-- The `POST /api/certificates/sign/:csrId` handler (server.js lines
236-338) as a state transition: the CA artifact check comes first, then
the request lookup, then the `status === 'signed'` guard; on the signing
path the certificate row is inserted with `csr_id`, `key_pem` taken from
the request row, `chain_pem` taken from the CA certificate read during
the operation and `source = 'signed'`; only after a successful insert is
the status UPDATE issued, and the handler reports success whether or not
that UPDATE takes effect (it is issued without an error callback). -/
def signCsr (art : CaArtifacts) (env : SignEnv) (st : DbState) (csrId : Nat) :
    SignOutcome × DbState :=
  match art.caKey, art.caCert with
  | some _, some caCertPem =>
    match findCsr st.csrs csrId with
    | none => (SignOutcome.requestNotFound, st)
    | some csr =>
      if csr.status == "signed" then (SignOutcome.alreadySigned, st)
      else if !env.opensslOk then (SignOutcome.signFailed, st)
      else if !env.insertOk then (SignOutcome.insertFailed, st)
      else
        let newCert : CertRow :=
          { cid := env.newId
            csr_id := some csrId
            common_name := env.parsedCN
            serial_number := env.parsedSerial
            cert_pem := env.certPem
            key_pem := some csr.key_pem
            chain_pem := some caCertPem
            source := "signed" }
        let csrs2 := if env.updateOk then setSigned st.csrs csrId else st.csrs
        (SignOutcome.ok env.newId, { csrs := csrs2, certs := st.certs ++ [newCert] })
  | _, _ => (SignOutcome.caNotInitialized, st)

/-- The `DELETE /api/csr/:id` handler (csr.js lines 297-308): an
unconditional `DELETE FROM csr_requests WHERE id = ?`, reported
not-found exactly when no row matched; the certificates table is not
touched. -/
def deleteCsr (st : DbState) (i : Nat) : Bool × DbState :=
  if anyCsr st.csrs i then
    (true, { csrs := removeCsr st.csrs i, certs := st.certs })
  else
    (false, st)

/-- The on-disk temporary files of `POST /api/csr` (csr.js lines
160-232): the OpenSSL config, the generated private key and the
generated request. -/
inductive CsrTmp where
  | cfgFile
  | keyFile
  | csrFile
deriving DecidableEq, Repr

/-- How far one `POST /api/csr` operation got before returning. -/
inductive CsrGenOutcome where
  | ok
  | keyGenFail
  | reqGenFail
  | insertFail
deriving DecidableEq, Repr

/-- Files existing on disk when the `POST /api/csr` handler reaches its
cleanup code: the config is written first, then `openssl genrsa`
produces the key, then `openssl req` produces the request. -/
def csrGenCreated : CsrGenOutcome → List CsrTmp
  | CsrGenOutcome.keyGenFail => [CsrTmp.cfgFile]
  | CsrGenOutcome.reqGenFail => [CsrTmp.cfgFile, CsrTmp.keyFile]
  | CsrGenOutcome.insertFail => [CsrTmp.cfgFile, CsrTmp.keyFile, CsrTmp.csrFile]
  | CsrGenOutcome.ok => [CsrTmp.cfgFile, CsrTmp.keyFile, CsrTmp.csrFile]

/-- Files the `POST /api/csr` handler removes before returning: the
catch block walks `[keyPath, csrPath, configPath]` unlinking whatever
exists, while the success path (reached before the INSERT, so also when
the INSERT then fails) runs only `fs.unlinkSync(configPath)`. -/
def csrGenDeleted : CsrGenOutcome → List CsrTmp
  | CsrGenOutcome.keyGenFail =>
    [CsrTmp.keyFile, CsrTmp.csrFile, CsrTmp.cfgFile].filter
      (fun f => (csrGenCreated CsrGenOutcome.keyGenFail).contains f)
  | CsrGenOutcome.reqGenFail =>
    [CsrTmp.keyFile, CsrTmp.csrFile, CsrTmp.cfgFile].filter
      (fun f => (csrGenCreated CsrGenOutcome.reqGenFail).contains f)
  | CsrGenOutcome.insertFail => [CsrTmp.cfgFile]
  | CsrGenOutcome.ok => [CsrTmp.cfgFile]

/-- Temporary files still on disk after `POST /api/csr` returns. -/
def csrGenLeftover (o : CsrGenOutcome) : List CsrTmp :=
  (csrGenCreated o).filter (fun f => !(csrGenDeleted o).contains f)

/-- The on-disk temporary files of `POST /api/certificates/sign/:csrId`
(server.js lines 257-336): the request copy, the extension file, the
signed certificate, and the scratch file of `parseCertificate`. -/
inductive SignTmp where
  | csrTmp
  | extFile
  | certFile
  | parseTmp
deriving DecidableEq, Repr

/-- How far one sign operation got before returning. -/
inductive SignFileOutcome where
  | ok
  | signFail
  | parseFail
  | insertFail
deriving DecidableEq, Repr

/-- Files existing when the sign handler reaches its cleanup code: the
request copy and extension file are written first, `openssl x509`
produces the certificate, then `parseCertificate` writes its scratch
file. -/
def signCreated : SignFileOutcome → List SignTmp
  | SignFileOutcome.signFail => [SignTmp.csrTmp, SignTmp.extFile]
  | SignFileOutcome.parseFail =>
    [SignTmp.csrTmp, SignTmp.extFile, SignTmp.certFile, SignTmp.parseTmp]
  | SignFileOutcome.insertFail =>
    [SignTmp.csrTmp, SignTmp.extFile, SignTmp.certFile, SignTmp.parseTmp]
  | SignFileOutcome.ok =>
    [SignTmp.csrTmp, SignTmp.extFile, SignTmp.certFile, SignTmp.parseTmp]

/-- Files the sign handler removes before returning: `parseCertificate`
unlinks its scratch file on both of its paths; the handler's catch block
walks `[csrPath, certPath, extPath]` unlinking whatever exists; the
success path (reached before the INSERT, so also when the INSERT then
fails) unlinks only `[csrPath, extPath]`. -/
def signDeleted : SignFileOutcome → List SignTmp
  | SignFileOutcome.signFail =>
    [SignTmp.csrTmp, SignTmp.certFile, SignTmp.extFile].filter
      (fun f => (signCreated SignFileOutcome.signFail).contains f)
  | SignFileOutcome.parseFail =>
    SignTmp.parseTmp ::
      ([SignTmp.csrTmp, SignTmp.certFile, SignTmp.extFile].filter
        (fun f => (signCreated SignFileOutcome.parseFail).contains f))
  | SignFileOutcome.insertFail => [SignTmp.parseTmp, SignTmp.csrTmp, SignTmp.extFile]
  | SignFileOutcome.ok => [SignTmp.parseTmp, SignTmp.csrTmp, SignTmp.extFile]

/-- Temporary files still on disk after the sign operation returns. -/
def signLeftover (o : SignFileOutcome) : List SignTmp :=
  (signCreated o).filter (fun f => !(signDeleted o).contains f)

/-- The on-disk temporary files of `POST /api/certificates/:id/export/pkcs12`
(server.js lines 420-461). -/
inductive P12Tmp where
  | certFile
  | keyFile
  | chainFile
  | p12File
deriving DecidableEq, Repr

/-- How far one PKCS#12 export got before returning. -/
inductive P12Outcome where
  | ok
  | opensslFail
deriving DecidableEq, Repr

/-- Files existing when the export handler reaches its cleanup code:
certificate and key copies always, the chain copy only when the record
has chain material, the bundle only when `openssl pkcs12` succeeded. -/
def p12Created (hasChain : Bool) : P12Outcome → List P12Tmp
  | P12Outcome.opensslFail =>
    [P12Tmp.certFile, P12Tmp.keyFile] ++ (if hasChain then [P12Tmp.chainFile] else [])
  | P12Outcome.ok =>
    [P12Tmp.certFile, P12Tmp.keyFile] ++ (if hasChain then [P12Tmp.chainFile] else []) ++
      [P12Tmp.p12File]

/-- Both the success path and the catch block of the export handler walk
`[certPath, keyPath, chainPath, p12Path]` unlinking whatever exists. -/
def p12Deleted (hasChain : Bool) (o : P12Outcome) : List P12Tmp :=
  [P12Tmp.certFile, P12Tmp.keyFile, P12Tmp.chainFile, P12Tmp.p12File].filter
    (fun f => (p12Created hasChain o).contains f)

/-- Temporary files still on disk after the PKCS#12 export returns. -/
def p12Leftover (hasChain : Bool) (o : P12Outcome) : List P12Tmp :=
  (p12Created hasChain o).filter (fun f => !(p12Deleted hasChain o).contains f)

/-- Assign per-type indices to an already classified entry list, starting
from the given bases; the recursion mirrors the counter updates of
`sanLoop`. -/
def numberFrom (d i m : Nat) : List (SanType × List Char) → List (SanType × Nat × List Char)
  | [] => []
  | (SanType.dns, v) :: r => (SanType.dns, d, v) :: numberFrom (d + 1) i m r
  | (SanType.ip, v) :: r => (SanType.ip, i, v) :: numberFrom d (i + 1) m r
  | (SanType.email, v) :: r => (SanType.email, m, v) :: numberFrom d i (m + 1) r

lemma countType_append (t t' : SanType) (v : List Char) (seen : List (SanType × List Char)) :
    countType t (seen ++ [(t', v)]) = countType t seen + (if t' = t then 1 else 0) := by
  simp only [countType, List.filter_append, List.length_append]
  congr 1
  by_cases h : t' = t <;> simp [List.filter, h]

lemma sanLoop_eq_numberFrom (es : List (List Char)) :
    ∀ d i m, sanLoop es d i m = numberFrom d i m (es.filterMap specClassify) := by
  induction es with
  | nil => intro d i m; rfl
  | cons e rest ih =>
    intro d i m
    simp only [sanLoop, specClassify, List.filterMap_cons]
    split_ifs <;> simp [numberFrom, ih]

lemma numberFrom_eq_specNumberAux (l : List (SanType × List Char)) :
    ∀ (seen : List (SanType × List Char)) (d i m : Nat),
      d = 1 + countType SanType.dns seen → i = 1 + countType SanType.ip seen →
      m = 1 + countType SanType.email seen →
      numberFrom d i m l = specNumberAux seen l := by
  induction l with
  | nil => intro seen d i m _ _ _; rfl
  | cons p rest ih =>
    intro seen d i m hd hi hm
    obtain ⟨t, v⟩ := p
    subst hd; subst hi; subst hm
    cases t with
    | dns =>
      simp only [numberFrom, specNumberAux]
      refine congrArg _ ?_
      exact ih (seen ++ [(SanType.dns, v)]) _ _ _
        (by simp [countType_append]; omega) (by simp [countType_append])
        (by simp [countType_append])
    | ip =>
      simp only [numberFrom, specNumberAux]
      refine congrArg _ ?_
      exact ih (seen ++ [(SanType.ip, v)]) _ _ _
        (by simp [countType_append]) (by simp [countType_append]; omega)
        (by simp [countType_append])
    | email =>
      simp only [numberFrom, specNumberAux]
      refine congrArg _ ?_
      exact ih (seen ++ [(SanType.email, v)]) _ _ _
        (by simp [countType_append]) (by simp [countType_append])
        (by simp [countType_append]; omega)

lemma buildSanEntries_eq_spec (san : String) : buildSanEntries san = specSanFragment san := by
  unfold buildSanEntries specSanFragment
  split_ifs with h
  · rfl
  · rw [sanLoop_eq_numberFrom, numberFrom_eq_specNumberAux _ [] 1 1 1 rfl rfl rfl]

lemma filterMap_cons_toList {α β : Type} (f : α → Option β) (a : α) (l : List α) :
    List.filterMap f (a :: l) = (f a).toList ++ List.filterMap f l := by
  cases h : f a <;> simp [h]

lemma buildSubject_eq_spec (d : SubjectFields) : buildSubject d = subjectSpec d := by
  refine congrArg String.join ?_
  simp only [buildSubjectParts, subjectSpec, subjectSpecOf, filterMap_cons_toList,
    List.filterMap_nil, List.append_assoc, List.append_nil]
  refine congrArg₂ _ ?_ (congrArg₂ _ ?_ (congrArg₂ _ ?_ (congrArg₂ _ ?_ (congrArg₂ _ ?_
    (congrArg₂ _ ?_ ?_))))) <;> split_ifs <;> rfl

lemma caInitSubject_eq_spec (r : CaRow) (hr : r.common_name ≠ "") :
    caInitSubject r =
      subjectSpec
        { common_name := r.common_name, organization := r.organization,
          organizational_unit := r.organizational_unit, country := r.country,
          state := r.state, locality := r.locality, email := "" } := by
  refine congrArg String.join ?_
  simp only [caInitSubject, subjectSpec, subjectSpecOf, filterMap_cons_toList,
    List.filterMap_nil, List.append_assoc, List.append_nil, if_neg hr]
  refine congrArg₂ _ ?_ (congrArg₂ _ ?_ (congrArg₂ _ ?_ (congrArg₂ _ ?_ (congrArg₂ _ ?_
    ?_)))) <;> split_ifs <;> simp

lemma findCsr_setSigned (l : List CsrRow) (i : Nat) (csr : CsrRow)
    (h : findCsr l i = some csr) :
    findCsr (setSigned l i) i = some { csr with status := "signed" } := by
  induction l with
  | nil => simp [findCsr] at h
  | cons r rest ih =>
    by_cases hr : (r.rid == i) = true
    · rw [findCsr, if_pos hr] at h
      cases h
      simp [setSigned, findCsr, hr]
    · rw [findCsr, if_neg hr] at h
      simpa [setSigned, findCsr, hr] using ih h

lemma findCsr_removeCsr (l : List CsrRow) (i : Nat) :
    findCsr (removeCsr l i) i = none := by
  induction l with
  | nil => rfl
  | cons r rest ih =>
    by_cases hr : (r.rid == i) = true
    · simpa [removeCsr, hr] using ih
    · simpa [removeCsr, findCsr, hr] using ih

lemma anyCsr_of_findCsr (l : List CsrRow) (i : Nat) (csr : CsrRow)
    (h : findCsr l i = some csr) :
    anyCsr l i = true := by
  induction l with
  | nil => simp [findCsr] at h
  | cons r rest ih =>
    by_cases hr : (r.rid == i) = true
    · simp [anyCsr, hr]
    · rw [findCsr, if_neg hr] at h
      simp [anyCsr, hr, ih h]

/-- A concrete pending signing request, for closed instantiations. -/
def sampleReq : CsrRow :=
  { rid := 1, preset := "server_tls", san := "DNS:a.com", csr_pem := "REQPEM",
    key_pem := "KEYPEM", status := "pending" }

/-- A database holding exactly the sample pending request. -/
def sampleState : DbState := { csrs := [sampleReq], certs := [] }

/-- A CA artifact store with both artifacts present. -/
def sampleArt : CaArtifacts := { caKey := some "CAKEYPEM", caCert := some "CACERTPEM" }

/-- An external environment in which every step of a sign operation
succeeds. -/
def sampleEnvOk : SignEnv :=
  { opensslOk := true, certPem := "CERTPEM", parsedCN := "a.com", parsedSerial := "0AB1",
    parsedIssuer := "CN=Root", parsedSubject := "CN=a.com", insertOk := true, newId := 7,
    updateOk := true }

/-- The same environment except that the status UPDATE fails. -/
def sampleEnvNoUpdate : SignEnv := { sampleEnvOk with updateOk := false }

/-- A concrete already-signed request, for the deletion instantiation. -/
def signedReq : CsrRow :=
  { rid := 2, preset := "server_tls", san := "", csr_pem := "REQPEM2",
    key_pem := "KEYPEM2", status := "signed" }

/-- A certificate row back-referencing the signed sample request. -/
def orphanCert : CertRow :=
  { cid := 5, csr_id := some 2, common_name := "b.com", serial_number := "0CD2",
    cert_pem := "CERTPEM2", key_pem := some "KEYPEM2", chain_pem := some "CACERTPEM",
    source := "signed" }

/-- A database holding the signed request and its issued certificate. -/
def sampleState2 : DbState := { csrs := [signedReq], certs := [orphanCert] }

/-- C1: the request-time SAN parser of `buildSanConfig` strips the
explicit `DNS:` prefix and classifies `DNS:a.com` as a DNS entry with
value `a.com`, but the signing-time `buildExtConfig` classifier — which
never looks for explicit prefixes — sees the colon and emits
`IP:DNS:a.com`; the two classifications of the same stored SAN text
disagree, contradicting the claim that they agree on every input. -/
theorem c1_san_classifiers_diverge :
    requestSanTyped "DNS:a.com" = [(SanType.dns, "a.com")] ∧
    (buildExtFragment "server_tls" "DNS:a.com").subjectAltName =
      [(SanType.ip, "DNS:a.com")] ∧
    (buildExtFragment "server_tls" "DNS:a.com").subjectAltName ≠
      requestSanTyped "DNS:a.com" := by
  decide

/-- C3: in the reachable post-state where the certificate INSERT
succeeded but the status UPDATE failed, the sign handler still reports
success and the database holds a `source = signed` certificate
back-referencing request 1 while request 1 is still `pending` — the
insert and the status update are not one logical transaction. -/
theorem c3_sign_not_atomic :
    (signCsr sampleArt sampleEnvNoUpdate sampleState 1).1 = SignOutcome.ok 7 ∧
    (signCsr sampleArt sampleEnvNoUpdate sampleState 1).2.certs =
      [{ cid := 7, csr_id := some 1, common_name := "a.com", serial_number := "0AB1",
         cert_pem := "CERTPEM", key_pem := some "KEYPEM", chain_pem := some "CACERTPEM",
         source := "signed" }] ∧
    findCsr (signCsr sampleArt sampleEnvNoUpdate sampleState 1).2.csrs 1 =
      some sampleReq ∧
    sampleReq.status = "pending" := by
  decide

/-- C8: the failure paths of CSR generation and signing, and both paths
of the PKCS#12 export, remove every temporary file, but the success path
of CSR generation (and its INSERT-failure path) leaves the key and
request files on disk, and the success path of signing (and its
INSERT-failure path) leaves the signed-certificate file on disk — the
claim that every temporary file is removed on both paths fails. -/
theorem c8_temp_files_leak :
    csrGenLeftover CsrGenOutcome.keyGenFail = [] ∧
    csrGenLeftover CsrGenOutcome.reqGenFail = [] ∧
    csrGenLeftover CsrGenOutcome.ok = [CsrTmp.keyFile, CsrTmp.csrFile] ∧
    csrGenLeftover CsrGenOutcome.insertFail = [CsrTmp.keyFile, CsrTmp.csrFile] ∧
    signLeftover SignFileOutcome.signFail = [] ∧
    signLeftover SignFileOutcome.parseFail = [] ∧
    signLeftover SignFileOutcome.ok = [SignTmp.certFile] ∧
    signLeftover SignFileOutcome.insertFail = [SignTmp.certFile] ∧
    p12Leftover true P12Outcome.ok = [] ∧
    p12Leftover false P12Outcome.ok = [] ∧
    p12Leftover true P12Outcome.opensslFail = [] ∧
    p12Leftover false P12Outcome.opensslFail = [] ∧
    csrGenLeftover CsrGenOutcome.ok ≠ [] := by
  decide

/-- C6 counterexample: the purpose tag `custom_vpn` is outside the
supported set, yet neither profile resolver fails — both lookup tables
return nothing for it and both resolvers fall back to the `server_tls`
profile, so the signing-time extension fragment for `custom_vpn` is
identical to the one for `server_tls`. -/
theorem c6_unknown_preset_maps_to_default :
    signPresets "custom_vpn" = none ∧
    reqPresets "custom_vpn" = none ∧
    resolveSignProfile "custom_vpn" = serverTlsSignProfile ∧
    resolveReqProfile "custom_vpn" = serverTlsReqProfile ∧
    buildExtFragment "custom_vpn" "a.com" = buildExtFragment "server_tls" "a.com" := by
  decide

/-- C7: the settings view reported by `GET /api/ca/settings` computes its
`initialized` value as artifact presence AND the stored flag on every
read: it is true exactly when the CA key artifact and the CA certificate
artifact both exist and the persisted `initialized` column equals 1. -/
theorem c7_initialized_reconciled (ke ce : Bool) (row : Option CaRow) :
    (getCaSettingsView ke ce row).initFlag = ((ke && ce) && storedFlagOne row) ∧
    ((getCaSettingsView ke ce row).initFlag = true ↔
      ke = true ∧ ce = true ∧ storedFlagOne row = true) := by
  cases row <;> cases ke <;> cases ce <;> simp [getCaSettingsView, storedFlagOne]

/-- C2: a sign call with a CA artifact missing fails with
CaNotInitialized and changes nothing; with artifacts present, a call
naming a nonexistent request id fails with RequestNotFound and changes
nothing; a first call on a pending request (with the external steps
succeeding) succeeds and transitions the request to signed, after which
every further sign call on that id — under any environment, with
artifacts present — fails with AlreadySigned and inserts no second
certificate record. -/
theorem c2_sign_lifecycle (art : CaArtifacts) (env : SignEnv) (st : DbState) (i : Nat) :
    (art.caKey = none ∨ art.caCert = none →
      signCsr art env st i = (SignOutcome.caNotInitialized, st)) ∧
    (art.caKey ≠ none → art.caCert ≠ none → findCsr st.csrs i = none →
      signCsr art env st i = (SignOutcome.requestNotFound, st)) ∧
    (∀ csr : CsrRow, art.caKey ≠ none → art.caCert ≠ none →
      findCsr st.csrs i = some csr → csr.status = "pending" →
      env.opensslOk = true → env.insertOk = true → env.updateOk = true →
      (signCsr art env st i).1 = SignOutcome.ok env.newId ∧
      findCsr (signCsr art env st i).2.csrs i = some { csr with status := "signed" } ∧
      (∀ (art2 : CaArtifacts) (env2 : SignEnv) (k c : String),
        art2.caKey = some k → art2.caCert = some c →
        signCsr art2 env2 (signCsr art env st i).2 i =
          (SignOutcome.alreadySigned, (signCsr art env st i).2))) := by
  obtain ⟨ck, cc⟩ := art
  cases ck with
  | none =>
    refine ⟨fun _ => rfl, fun h => absurd rfl h, fun csr h => absurd rfl h⟩
  | some k0 =>
    cases cc with
    | none =>
      refine ⟨fun _ => rfl, fun _ h => absurd rfl h, fun csr _ h => absurd rfl h⟩
    | some c0 =>
      refine ⟨?_, ?_, ?_⟩
      · rintro (h | h) <;> simp at h
      · intro _ _ hf
        simp [signCsr, hf]
      · intro csr _ _ hf hst hoss hins hupd
        have hne : (csr.status == "signed") = false := by
          rw [hst]; decide
        have hfind2 : findCsr (setSigned st.csrs i) i =
            some { csr with status := "signed" } := findCsr_setSigned st.csrs i csr hf
        refine ⟨?_, ?_, ?_⟩
        · simp [signCsr, hf, hne, hoss, hins]
        · simp [signCsr, hf, hne, hoss, hins, hupd, hfind2]
        · intro art2 env2 k c hk hc
          obtain ⟨ck2, cc2⟩ := art2
          obtain rfl : ck2 = some k := hk
          obtain rfl : cc2 = some c := hc
          simp [signCsr, hf, hne, hoss, hins, hupd, hfind2]

/-- C2 witness: with both CA artifacts present, an all-steps-succeeding
environment and the sample pending request, the first sign call succeeds
and marks the request signed, and a repeat call on the resulting state
fails with AlreadySigned leaving the state unchanged. -/
theorem c2_sign_lifecycle_witness :
    (signCsr sampleArt sampleEnvOk sampleState 1).1 = SignOutcome.ok 7 ∧
    findCsr (signCsr sampleArt sampleEnvOk sampleState 1).2.csrs 1 =
      some { sampleReq with status := "signed" } ∧
    signCsr sampleArt sampleEnvOk (signCsr sampleArt sampleEnvOk sampleState 1).2 1 =
      (SignOutcome.alreadySigned, (signCsr sampleArt sampleEnvOk sampleState 1).2) := by
  have h := (c2_sign_lifecycle sampleArt sampleEnvOk sampleState 1).2.2 sampleReq
    (by decide) (by decide) (by decide) (by decide) (by decide) (by decide) (by decide)
  exact ⟨h.1, h.2.1, h.2.2 sampleArt sampleEnvOk "CAKEYPEM" "CACERTPEM" rfl rfl⟩

/-- C4: the request-time SAN entries built by `buildSanConfig` coincide
with the section 4.2 specification — each trimmed non-empty entry
classified by prefix-then-heuristic rules and numbered from 1 per type
in encounter order, independently of source form; whitespace-only input
yields no entries; and the spec's concrete example evaluates as stated. -/
theorem c4_san_parsing (san : String) :
    buildSanEntries san = specSanFragment san ∧
    ((trimChars san.data).isEmpty = true → buildSanEntries san = []) ∧
    buildSanEntries "DNS:a.com, 10.0.0.1, user@x.com, b.com" =
      [(SanType.dns, 1, "a.com"), (SanType.ip, 1, "10.0.0.1"),
       (SanType.email, 1, "user@x.com"), (SanType.dns, 2, "b.com")] := by
  refine ⟨buildSanEntries_eq_spec san, ?_, by decide⟩
  intro h
  simp [buildSanEntries, h]

/-- C4 witness: instantiated at a whitespace-only SAN input. -/
theorem c4_san_parsing_witness :
    (trimChars ("  ".data)).isEmpty = true ∧ buildSanEntries "  " = [] :=
  ⟨by decide, (c4_san_parsing "  ").2.1 (by decide)⟩

/-- C5: the request-generation subject equals the spec's ordered
concatenation of exactly the non-empty fields (email included on this
path); the CA-init subject equals the same concatenation without email
whenever the common name is non-empty; a blank common name is rejected
with MissingCommonName by both the CSR route and the CA-init route; and
the spec's concrete example evaluates as stated. -/
theorem c5_subject_canonicalization (d : SubjectFields) (r r2 : CaRow) (p : String)
    (hr : r.common_name ≠ "") (h2 : r2.common_name = "") :
    buildSubject d = subjectSpec d ∧
    caInitSubject r =
      subjectSpec
        { common_name := r.common_name, organization := r.organization,
          organizational_unit := r.organizational_unit, country := r.country,
          state := r.state, locality := r.locality, email := "" } ∧
    csrCreateCheck "" p = some ApiError.MissingCommonName ∧
    caInitCheck none = some ApiError.MissingCommonName ∧
    caInitCheck (some r2) = some ApiError.MissingCommonName ∧
    buildSubject
      { common_name := "x.com", organization := "Acme", organizational_unit := "",
        country := "", state := "", locality := "", email := "" } = "/O=Acme/CN=x.com" := by
  refine ⟨buildSubject_eq_spec d, caInitSubject_eq_spec r hr, rfl, rfl, ?_, by decide⟩
  simp [caInitCheck, h2]

/-- C5 witness: instantiated at concrete identities with non-empty and
empty common names. -/
theorem c5_subject_canonicalization_witness :
    buildSubject
      { common_name := "x.com", organization := "Acme", organizational_unit := "",
        country := "", state := "", locality := "", email := "" } = "/O=Acme/CN=x.com" := by
  have h := c5_subject_canonicalization
    { common_name := "x.com", organization := "Acme", organizational_unit := "",
      country := "", state := "", locality := "", email := "" }
    { common_name := "Root", organization := "", organizational_unit := "",
      country := "", state := "", locality := "", key_type := "RSA", key_size := 2048,
      initFlag := 0 }
    { common_name := "", organization := "", organizational_unit := "",
      country := "", state := "", locality := "", key_type := "RSA", key_size := 2048,
      initFlag := 0 }
    "server_tls" (by decide) (by decide)
  exact h.2.2.2.2.2

/-- C6 (amended): for the three supported purposes both resolvers return
exactly the section 4.1 triples, with `CA:FALSE` at request time and
`critical,CA:FALSE` at signing time; the CSR-creation route rejects an
unknown purpose with InvalidProfile before any generation; but the
profile resolvers inside `buildSanConfig` and `buildExtConfig` map an
unknown purpose to the `server_tls` profile instead of failing, so the
signing path never reports InvalidProfile. -/
theorem c6_profile_resolution (p cn : String) :
    resolveReqProfile "server_tls" =
      ⟨"critical,digitalSignature,keyEncipherment", "serverAuth", "CA:FALSE"⟩ ∧
    resolveReqProfile "client_tls" =
      ⟨"critical,digitalSignature", "clientAuth", "CA:FALSE"⟩ ∧
    resolveReqProfile "code_signing" =
      ⟨"critical,digitalSignature", "codeSigning", "CA:FALSE"⟩ ∧
    resolveSignProfile "server_tls" =
      ⟨"critical,digitalSignature,keyEncipherment", "serverAuth", "critical,CA:FALSE"⟩ ∧
    resolveSignProfile "client_tls" =
      ⟨"critical,digitalSignature", "clientAuth", "critical,CA:FALSE"⟩ ∧
    resolveSignProfile "code_signing" =
      ⟨"critical,digitalSignature", "codeSigning", "critical,CA:FALSE"⟩ ∧
    (cn ≠ "" → reqPresets p = none →
      csrCreateCheck cn p = some ApiError.InvalidProfile) ∧
    (reqPresets p = none → resolveReqProfile p = serverTlsReqProfile) ∧
    (signPresets p = none → resolveSignProfile p = serverTlsSignProfile) ∧
    (buildExtFragment p "x").profile = resolveSignProfile p := by
  refine ⟨by decide, by decide, by decide, by decide, by decide, by decide, ?_, ?_, ?_, rfl⟩
  · intro hcn hnone
    rw [csrCreateCheck, if_neg hcn]
    simp [hnone]
  · intro hnone
    simp [resolveReqProfile, hnone]
  · intro hnone
    simp [resolveSignProfile, hnone]

/-- C6 witness: instantiated at the unknown purpose tag `custom_vpn`
and a non-empty common name. -/
theorem c6_profile_resolution_witness :
    csrCreateCheck "x" "custom_vpn" = some ApiError.InvalidProfile ∧
    resolveReqProfile "custom_vpn" = serverTlsReqProfile ∧
    resolveSignProfile "custom_vpn" = serverTlsSignProfile := by
  have h := c6_profile_resolution "custom_vpn" "x"
  exact ⟨h.2.2.2.2.2.2.1 (by decide) (by decide), h.2.2.2.2.2.2.2.1 (by decide),
    h.2.2.2.2.2.2.2.2.1 (by decide)⟩

/-- C9: every sign operation that reaches the INSERT appends exactly one
certificate row whose private-key material is the originating request's
`key_pem`, whose chain material is the CA certificate PEM read from the
artifact store during that operation, whose `source` is `signed` and
whose `csr_id` references the request. -/
theorem c9_signed_cert_key_chain (art : CaArtifacts) (env : SignEnv) (st : DbState)
    (i : Nat) (csr : CsrRow) (k c : String)
    (hk : art.caKey = some k) (hc : art.caCert = some c)
    (hfind : findCsr st.csrs i = some csr) (hst : (csr.status == "signed") = false)
    (hoss : env.opensslOk = true) (hins : env.insertOk = true) :
    ∃ newCert : CertRow,
      (signCsr art env st i).2.certs = st.certs ++ [newCert] ∧
      newCert.key_pem = some csr.key_pem ∧
      newCert.chain_pem = some c ∧
      newCert.source = "signed" ∧
      newCert.csr_id = some i := by
  obtain ⟨ck, cc⟩ := art
  obtain rfl : ck = some k := hk
  obtain rfl : cc = some c := hc
  refine
    ⟨{ cid := env.newId, csr_id := some i, common_name := env.parsedCN,
       serial_number := env.parsedSerial, cert_pem := env.certPem,
       key_pem := some csr.key_pem, chain_pem := some c, source := "signed" },
     ?_, rfl, rfl, rfl, rfl⟩
  simp [signCsr, hfind, hst, hoss, hins]

/-- C9 witness: instantiated at the sample artifacts, environment and
pending request. -/
theorem c9_signed_cert_key_chain_witness :
    ∃ newCert : CertRow,
      (signCsr sampleArt sampleEnvOk sampleState 1).2.certs =
        sampleState.certs ++ [newCert] ∧
      newCert.key_pem = some sampleReq.key_pem ∧
      newCert.chain_pem = some "CACERTPEM" ∧
      newCert.source = "signed" ∧
      newCert.csr_id = some 1 :=
  c9_signed_cert_key_chain sampleArt sampleEnvOk sampleState 1 sampleReq
    "CAKEYPEM" "CACERTPEM" rfl rfl (by decide) (by decide) (by decide) (by decide)

/-- C10: deleting a signing request succeeds for every existing request
regardless of its status; afterwards no request row with that id
remains, while the certificates table — including any `csr_id`
back-reference to the deleted request — is untouched. -/
theorem c10_delete_ignores_status (st : DbState) (i : Nat) (csr : CsrRow)
    (h : findCsr st.csrs i = some csr) :
    (deleteCsr st i).1 = true ∧
    findCsr (deleteCsr st i).2.csrs i = none ∧
    (deleteCsr st i).2.certs = st.certs := by
  have ha := anyCsr_of_findCsr st.csrs i csr h
  refine ⟨?_, ?_, ?_⟩ <;> simp [deleteCsr, ha, findCsr_removeCsr]

/-- C10 witness: deleting the already-signed sample request succeeds,
removes it, and leaves the issued certificate with its dangling non-null
`csr_id` back-reference in place. -/
theorem c10_delete_ignores_status_witness :
    signedReq.status = "signed" ∧
    (deleteCsr sampleState2 2).1 = true ∧
    findCsr (deleteCsr sampleState2 2).2.csrs 2 = none ∧
    (deleteCsr sampleState2 2).2.certs = [orphanCert] ∧
    orphanCert.csr_id = some 2 := by
  have h := c10_delete_ignores_status sampleState2 2 signedReq (by decide)
  refine ⟨by decide, h.1, h.2.1, ?_, by decide⟩
  rw [h.2.2]; rfl

end Roarinca
